import Mathlib

/-!
Verification of the aggregation core of a personal finance tracker.

The development embeds, as executable Lean definitions, the budget
aggregator (`Budget.get_spent_amount`, `Budget.get_remaining_amount`,
`Budget.is_over_budget` from lib/db/models.py), the savings-goal tracker
(`SavingsGoal.add_contribution`, `SavingsGoal.get_progress_percentage`,
`SavingsGoal.get_remaining_amount` from lib/db/models.py), the report
aggregator (`generate_report` from lib/cli.py), the transaction-type
parse used when transactions are created, and the tag-resolution loop of
`add_transaction_with_tags`.  Monetary amounts (Python floats holding
decimal quantities) are modelled as exact rationals; dates as
year/month/day triples with the strftime renderings the code compares.
-/

namespace FinanceTracker

/-- Transaction types, from the TransactionType enum in lib/db/models.py. -/
inductive TransactionType where
  | INCOME
  | EXPENSE
  deriving DecidableEq, Repr

/-- Calendar date (year, month, day), modelling Python datetime.date. -/
structure Date where
  year : Nat
  month : Nat
  day : Nat
  deriving DecidableEq, Repr

/-- Zero-pad a number to two digits, as strftime renders month and day. -/
def pad2 (n : Nat) : String :=
  if n < 10 then "0" ++ toString n else toString n

/-- Zero-pad a year to four digits, as strftime renders the year. -/
def pad4 (n : Nat) : String :=
  if n < 10 then "000" ++ toString n
  else if n < 100 then "00" ++ toString n
  else if n < 1000 then "0" ++ toString n
  else toString n

/-- The strftime rendering of a date as year-month, which
Budget.get_spent_amount compares with the budget's month string. -/
def Date.strftimeYM (d : Date) : String :=
  pad4 d.year ++ "-" ++ pad2 d.month

/-- The ISO rendering of a date as year-month-day, the stored form that
the LIKE month-prefix filters in lib/cli.py match against. -/
def Date.isoString (d : Date) : String :=
  pad4 d.year ++ "-" ++ pad2 d.month ++ "-" ++ pad2 d.day

/-- Transaction record, from the Transaction model in lib/db/models.py
(fields that the aggregation core reads). -/
structure Transaction where
  amount : ℚ
  description : String
  category : String
  transaction_type : TransactionType
  transaction_date : Date
  deriving DecidableEq, Repr

/-- Budget record, from the Budget model in lib/db/models.py; month is a
year-month string. -/
structure Budget where
  category : String
  limit_amount : ℚ
  month : String
  deriving DecidableEq, Repr

/-- Budget.get_spent_amount from lib/db/models.py: fold over the
transaction list, accumulating the amounts of transactions whose
category equals the budget's category, whose type is EXPENSE and whose
date rendered as year-month equals the budget's month. -/
def Budget.get_spent_amount (b : Budget) (transactions : List Transaction) : ℚ :=
  transactions.foldl
    (fun spent t =>
      if t.category = b.category ∧ t.transaction_type = TransactionType.EXPENSE ∧
          t.transaction_date.strftimeYM = b.month
      then spent + t.amount else spent)
    0

/-- Budget.get_remaining_amount from lib/db/models.py. -/
def Budget.get_remaining_amount (b : Budget) (transactions : List Transaction) : ℚ :=
  b.limit_amount - b.get_spent_amount transactions

/-- Budget.is_over_budget from lib/db/models.py. -/
def Budget.is_over_budget (b : Budget) (transactions : List Transaction) : Bool :=
  decide (b.get_remaining_amount transactions < 0)

/-- The accumulating fold of Budget.get_spent_amount equals the initial
value plus the sum of the amounts of the matching transactions. -/
theorem spent_foldl (b : Budget) (ts : List Transaction) (init : ℚ) :
    ts.foldl
      (fun spent t =>
        if t.category = b.category ∧ t.transaction_type = TransactionType.EXPENSE ∧
            t.transaction_date.strftimeYM = b.month
        then spent + t.amount else spent) init
      = init
        + ((ts.filter (fun t =>
            decide (t.category = b.category ∧ t.transaction_type = TransactionType.EXPENSE ∧
              t.transaction_date.strftimeYM = b.month))).map Transaction.amount).sum := by
  induction ts generalizing init with
  | nil => simp
  | cons t rest ih =>
    by_cases h : t.category = b.category ∧ t.transaction_type = TransactionType.EXPENSE ∧
        t.transaction_date.strftimeYM = b.month
    · simp [List.foldl_cons, List.filter_cons, h, ih]
      ring
    · simp [List.foldl_cons, List.filter_cons, h, ih]

/-- C1: for every Budget and transaction list, the spent amount is the sum
of the amounts of exactly those transactions matching the budget's
category, the EXPENSE type and the budget's month; the remaining amount is
the limit minus the spent amount; the budget is over exactly when the
remaining amount is negative; and on the empty list the spent amount is 0
and the remaining amount is the limit. -/
theorem claim_C1 (b : Budget) (ts : List Transaction) :
    b.get_spent_amount ts
      = ((ts.filter (fun t =>
          decide (t.category = b.category ∧ t.transaction_type = TransactionType.EXPENSE ∧
            t.transaction_date.strftimeYM = b.month))).map Transaction.amount).sum
    ∧ b.get_remaining_amount ts = b.limit_amount - b.get_spent_amount ts
    ∧ (b.is_over_budget ts = true ↔ b.get_remaining_amount ts < 0)
    ∧ b.get_spent_amount [] = 0
    ∧ b.get_remaining_amount [] = b.limit_amount := by
  refine ⟨?_, rfl, ?_, rfl, ?_⟩
  · rw [Budget.get_spent_amount, spent_foldl, zero_add]
  · simp [Budget.is_over_budget]
  · simp [Budget.get_remaining_amount, Budget.get_spent_amount]

/-- SavingsGoal record, from the SavingsGoal model in lib/db/models.py
(fields that the tracker reads and writes). -/
structure SavingsGoal where
  name : String
  target_amount : ℚ
  current_amount : ℚ
  is_achieved : Bool
  deriving DecidableEq, Repr

/-- SavingsGoal.add_contribution from lib/db/models.py: add the amount to
current_amount, and set is_achieved to true when the updated
current_amount has reached target_amount (the flag is never cleared). -/
def SavingsGoal.add_contribution (g : SavingsGoal) (amount : ℚ) : SavingsGoal :=
  let c := g.current_amount + amount
  if c ≥ g.target_amount then
    { g with current_amount := c, is_achieved := true }
  else
    { g with current_amount := c }

/-- SavingsGoal.get_progress_percentage from lib/db/models.py: 0 when the
target is nonpositive, otherwise current over target times 100, capped at
100. -/
def SavingsGoal.get_progress_percentage (g : SavingsGoal) : ℚ :=
  if g.target_amount ≤ 0 then 0
  else min (g.current_amount / g.target_amount * 100) 100

/-- SavingsGoal.get_remaining_amount from lib/db/models.py. -/
def SavingsGoal.get_remaining_amount (g : SavingsGoal) : ℚ :=
  max (g.target_amount - g.current_amount) 0

/-- A freshly created goal with target 100, as add_savings_goal builds it
(current_amount starts at 0, is_achieved starts false). -/
def goalStart : SavingsGoal :=
  { name := "vacation", target_amount := 100, current_amount := 0, is_achieved := false }

/-- C3 counterexample: reach the goal with a contribution of 100, then add
a contribution of -50 (the tracker accepts non-positive amounts); the flag
stays true although current_amount is now below target_amount, so
is_achieved and current_amount >= target_amount disagree. -/
theorem claim_C3_counterexample :
    ¬(((goalStart.add_contribution 100).add_contribution (-50)).is_achieved = true
        ↔ ((goalStart.add_contribution 100).add_contribution (-50)).current_amount
            ≥ ((goalStart.add_contribution 100).add_contribution (-50)).target_amount) := by
  norm_num [goalStart, SavingsGoal.add_contribution]

/-- C3 (amended): after add_contribution, is_achieved is true exactly when
it was already true before the call or the updated current_amount has
reached target_amount. -/
theorem claim_C3 (g : SavingsGoal) (amount : ℚ) :
    (g.add_contribution amount).is_achieved = true
      ↔ (g.is_achieved = true
          ∨ (g.add_contribution amount).current_amount
              ≥ (g.add_contribution amount).target_amount) := by
  unfold SavingsGoal.add_contribution
  by_cases h : g.current_amount + amount ≥ g.target_amount <;> simp [h]

/-- C4 counterexample: from a fresh goal with target 100, the single
contribution -50 (accepted by the tracker) leaves current_amount at -50,
and get_progress_percentage is then negative, outside [0, 100]. -/
theorem claim_C4_counterexample :
    (goalStart.add_contribution (-50)).get_progress_percentage < 0 := by
  norm_num [goalStart, SavingsGoal.add_contribution, SavingsGoal.get_progress_percentage]

/-- C4 (amended): get_progress_percentage equals the capped ratio when
target_amount is positive and 0 otherwise, and it never exceeds 100; it
is nonnegative (hence in [0, 100]) whenever current_amount is
nonnegative, while a negative current_amount (reachable by a negative
contribution) can make it negative. -/
theorem claim_C4 (g : SavingsGoal) :
    g.get_progress_percentage
      = (if 0 < g.target_amount then min (g.current_amount / g.target_amount * 100) 100 else 0)
    ∧ g.get_progress_percentage ≤ 100
    ∧ (0 ≤ g.current_amount → 0 ≤ g.get_progress_percentage) := by
  unfold SavingsGoal.get_progress_percentage
  by_cases ht : g.target_amount ≤ 0
  · rw [if_pos ht, if_neg (not_lt.mpr ht)]
    exact ⟨rfl, by norm_num, fun _ => le_refl 0⟩
  · have htpos : 0 < g.target_amount := lt_of_not_le ht
    rw [if_neg ht, if_pos htpos]
    refine ⟨rfl, min_le_right _ _, fun h => ?_⟩
    exact le_min (mul_nonneg (div_nonneg h htpos.le) (by norm_num)) (by norm_num)

/-- A goal halfway to its target, used to witness C4. -/
def goalHalf : SavingsGoal :=
  { name := "car", target_amount := 100, current_amount := 50, is_achieved := false }

/-- Witness for C4 at a concrete goal with nonnegative current_amount. -/
theorem claim_C4_witness :
    0 ≤ goalHalf.current_amount
    ∧ goalHalf.get_progress_percentage
        = (if 0 < goalHalf.target_amount
            then min (goalHalf.current_amount / goalHalf.target_amount * 100) 100 else 0)
    ∧ goalHalf.get_progress_percentage ≤ 100
    ∧ 0 ≤ goalHalf.get_progress_percentage :=
  ⟨by norm_num [goalHalf], (claim_C4 goalHalf).1, (claim_C4 goalHalf).2.1,
    (claim_C4 goalHalf).2.2 (by norm_num [goalHalf])⟩

/-- C10: is_achieved is a one-way latch: whenever it is true before
add_contribution, it is still true afterwards, whatever the contribution
(add_contribution only ever assigns true to the flag). -/
theorem claim_C10 (g : SavingsGoal) (amount : ℚ) (h : g.is_achieved = true) :
    (g.add_contribution amount).is_achieved = true := by
  unfold SavingsGoal.add_contribution
  by_cases hc : g.current_amount + amount ≥ g.target_amount <;> simp [h, hc]

/-- An achieved goal, used to witness C10. -/
def goalDone : SavingsGoal :=
  { name := "fund", target_amount := 100, current_amount := 120, is_achieved := true }

/-- Witness for C10: an achieved goal receives a contribution of -90 that
leaves current_amount below target_amount, yet the flag stays true. -/
theorem claim_C10_witness :
    goalDone.is_achieved = true
    ∧ (goalDone.add_contribution (-90)).is_achieved = true
    ∧ (goalDone.add_contribution (-90)).current_amount
        < (goalDone.add_contribution (-90)).target_amount :=
  ⟨rfl, claim_C10 goalDone (-90) rfl,
    by norm_num [goalDone, SavingsGoal.add_contribution]⟩

/-- The SQL LIKE month-prefix match that lib/cli.py uses to fetch a
month's transactions: true when the month string is a character prefix of
the stored ISO rendering of the transaction date. -/
def monthLike (month : String) (s : String) : Bool :=
  List.isPrefixOf month.data s.data

/-- Report record, the dictionary returned by generate_report in
lib/cli.py; the category mappings are association lists in
first-encountered order, as Python dicts preserve insertion order. -/
structure ReportData where
  month : String
  total_income : ℚ
  total_expenses : ℚ
  net_income : ℚ
  category_expenses : List (String × ℚ)
  category_income : List (String × ℚ)
  transactions_count : Nat
  deriving DecidableEq, Repr

/-- One step of the defaultdict accumulation in generate_report: add the
amount to the category's entry, appending a fresh entry on first sight. -/
def addToCategory : List (String × ℚ) → String → ℚ → List (String × ℚ)
  | [], cat, amt => [(cat, amt)]
  | (c, a) :: rest, cat, amt =>
    if c = cat then (c, a + amt) :: rest
    else (c, a) :: addToCategory rest cat amt

/-- Group transactions by category, summing amounts, entries in
first-encountered order (the two accumulation loops of generate_report). -/
def categoryTotals (ts : List Transaction) : List (String × ℚ) :=
  ts.foldl (fun acc t => addToCategory acc t.category t.amount) []

/-- FinanceTrackerCLI.generate_report from lib/cli.py: select the month's
transactions with the LIKE month-prefix filter, return the empty early
result (the Python empty dict, modelled as none) when there are none,
otherwise partition into income and expense sets, total each, group each
by category, and build the report record. -/
def generate_report (month : String) (transactions : List Transaction) : Option ReportData :=
  let ts := transactions.filter (fun t => monthLike month t.transaction_date.isoString)
  if ts.isEmpty then none
  else
    let income_transactions :=
      ts.filter (fun t => decide (t.transaction_type = TransactionType.INCOME))
    let expense_transactions :=
      ts.filter (fun t => decide (t.transaction_type = TransactionType.EXPENSE))
    let total_income := (income_transactions.map Transaction.amount).sum
    let total_expenses := (expense_transactions.map Transaction.amount).sum
    some
      { month := month
        total_income := total_income
        total_expenses := total_expenses
        net_income := total_income - total_expenses
        category_expenses := categoryTotals expense_transactions
        category_income := categoryTotals income_transactions
        transactions_count := ts.length }

/-- Sum of the values of a category mapping. -/
def sumValues (m : List (String × ℚ)) : ℚ :=
  (m.map Prod.snd).sum

/-- Adding an amount into a category mapping grows the value sum by that
amount. -/
theorem sumValues_addToCategory (acc : List (String × ℚ)) (cat : String) (amt : ℚ) :
    sumValues (addToCategory acc cat amt) = sumValues acc + amt := by
  induction acc with
  | nil => simp [addToCategory, sumValues]
  | cons p rest ih =>
    obtain ⟨c, a⟩ := p
    by_cases h : c = cat
    · simp [addToCategory, h, sumValues]
      ring
    · simp [addToCategory, h, sumValues] at ih ⊢
      rw [ih]
      ring

/-- The grouping fold, started from any accumulator, adds exactly the
total amount of the transactions to the value sum. -/
theorem sumValues_categoryTotals_fold (ts : List Transaction) (acc : List (String × ℚ)) :
    sumValues (ts.foldl (fun acc t => addToCategory acc t.category t.amount) acc)
      = sumValues acc + (ts.map Transaction.amount).sum := by
  induction ts generalizing acc with
  | nil => simp
  | cons t rest ih =>
    simp only [List.foldl_cons, List.map_cons, List.sum_cons, ih, sumValues_addToCategory]
    ring

/-- The value sum of the category grouping is the total amount. -/
theorem sumValues_categoryTotals (ts : List Transaction) :
    sumValues (categoryTotals ts) = (ts.map Transaction.amount).sum := by
  simpa [sumValues] using sumValues_categoryTotals_fold ts []

/-- C2: every report that generate_report actually returns satisfies
net_income = total_income - total_expenses, and the values of
category_expenses sum to total_expenses, and the values of
category_income sum to total_income. -/
theorem claim_C2 (month : String) (transactions : List Transaction) (r : ReportData)
    (h : generate_report month transactions = some r) :
    r.net_income = r.total_income - r.total_expenses
    ∧ sumValues r.category_expenses = r.total_expenses
    ∧ sumValues r.category_income = r.total_income := by
  simp only [generate_report] at h
  split at h
  · exact absurd h (by simp)
  · injection h with h
    subst h
    exact ⟨rfl, sumValues_categoryTotals _, sumValues_categoryTotals _⟩

/-- A concrete month of transactions: a salary, two expenses, and one
transaction outside the month that the report filter must drop. -/
def reportTs : List Transaction :=
  [ { amount := 3000, description := "Monthly pay", category := "Salary",
      transaction_type := TransactionType.INCOME, transaction_date := ⟨2024, 3, 1⟩ },
    { amount := 200, description := "Food", category := "Groceries",
      transaction_type := TransactionType.EXPENSE, transaction_date := ⟨2024, 3, 5⟩ },
    { amount := 100, description := "Eating out", category := "Dining",
      transaction_type := TransactionType.EXPENSE, transaction_date := ⟨2024, 3, 10⟩ },
    { amount := 50, description := "Next month", category := "Rent",
      transaction_type := TransactionType.EXPENSE, transaction_date := ⟨2024, 4, 1⟩ } ]

/-- The report generate_report produces for reportTs in 2024-03. -/
def reportR : ReportData :=
  { month := "2024-03"
    total_income := 3000
    total_expenses := 300
    net_income := 2700
    category_expenses := [("Groceries", 200), ("Dining", 100)]
    category_income := [("Salary", 3000)]
    transactions_count := 3 }

/-- generate_report on the concrete month evaluates to the concrete
report. -/
theorem generate_report_reportTs : generate_report "2024-03" reportTs = some reportR := by
  have h1 : monthLike "2024-03" (Date.isoString ⟨2024, 3, 1⟩) = true := by decide
  have h2 : monthLike "2024-03" (Date.isoString ⟨2024, 3, 5⟩) = true := by decide
  have h3 : monthLike "2024-03" (Date.isoString ⟨2024, 3, 10⟩) = true := by decide
  have h4 : monthLike "2024-03" (Date.isoString ⟨2024, 4, 1⟩) = false := by decide
  have d1 : ¬(TransactionType.EXPENSE = TransactionType.INCOME) := by decide
  have d2 : ¬(TransactionType.INCOME = TransactionType.EXPENSE) := by decide
  simp only [generate_report, reportTs, reportR, List.filter_cons, List.filter_nil,
    h1, h2, h3, h4]
  norm_num [categoryTotals, addToCategory, List.filter_cons, List.filter_nil, d1, d2]
  decide

/-- Witness for C2 at the concrete month of transactions. -/
theorem claim_C2_witness :
    reportR.net_income = reportR.total_income - reportR.total_expenses
    ∧ sumValues reportR.category_expenses = reportR.total_expenses
    ∧ sumValues reportR.category_income = reportR.total_income :=
  claim_C2 "2024-03" reportTs reportR generate_report_reportTs

/-- C5: generate_report yields the designated empty result (the Python
empty dict, modelled as none) exactly when the month holds no
transactions; any month with transactions gets a populated report
(some record), so callers can distinguish "no transactions" from a report
whose totals happen to be zero. -/
theorem claim_C5 (month : String) (transactions : List Transaction) :
    generate_report month transactions = none
      ↔ transactions.filter (fun t => monthLike month t.transaction_date.isoString) = [] := by
  simp only [generate_report]
  generalize transactions.filter (fun t => monthLike month t.transaction_date.isoString) = l
  cases l with
  | nil => simp
  | cons x xs => simp

/-- The listing sort applied to a category breakdown before rendering it
in generate_report: Python sorted with the amount as key and
reverse=True, a stable descending sort, modelled by the stable mergeSort
comparing second components with greater-or-equal. -/
def sortedByAmountDesc (m : List (String × ℚ)) : List (String × ℚ) :=
  m.mergeSort (fun a b => decide (b.2 ≤ a.2))

/-- C8: the rendered category breakdown is a permutation of the grouped
mapping, its summed amounts are in descending order, and two entries with
equal sums keep their first-encountered relative order (stability). -/
theorem claim_C8 (m : List (String × ℚ)) :
    (sortedByAmountDesc m).Perm m
    ∧ (sortedByAmountDesc m).Pairwise (fun a b => b.2 ≤ a.2)
    ∧ ∀ a b : String × ℚ, a.2 = b.2 → List.Sublist [a, b] m →
        List.Sublist [a, b] (sortedByAmountDesc m) := by
  have htrans : ∀ a b c : String × ℚ,
      decide ((b.2 : ℚ) ≤ a.2) = true → decide ((c.2 : ℚ) ≤ b.2) = true →
        decide ((c.2 : ℚ) ≤ a.2) = true := by
    intro a b c hab hbc
    simp only [decide_eq_true_eq] at hab hbc ⊢
    exact hbc.trans hab
  have htotal : ∀ a b : String × ℚ,
      (decide ((b.2 : ℚ) ≤ a.2) || decide ((a.2 : ℚ) ≤ b.2)) = true := by
    intro a b
    simp only [Bool.or_eq_true, decide_eq_true_eq]
    exact le_total b.2 a.2
  refine ⟨?_, ?_, ?_⟩
  · exact List.mergeSort_perm m _
  · have hp := List.sorted_mergeSort htrans htotal m
    exact hp.imp (fun hab => by simpa using hab)
  · intro a b hab hsub
    exact List.pair_sublist_mergeSort htrans htotal (by simp [hab]) hsub

/-- Witness for C8: two categories with equal sums stay in their original
order in the sorted listing. -/
theorem claim_C8_witness :
    (("Dining", (100 : ℚ)).2 = ("Groceries", (100 : ℚ)).2)
    ∧ List.Sublist [("Dining", (100 : ℚ)), ("Groceries", (100 : ℚ))]
        [("Dining", (100 : ℚ)), ("Groceries", (100 : ℚ))]
    ∧ List.Sublist [("Dining", (100 : ℚ)), ("Groceries", (100 : ℚ))]
        (sortedByAmountDesc [("Dining", (100 : ℚ)), ("Groceries", (100 : ℚ))]) :=
  ⟨rfl, List.Sublist.refl _,
    (claim_C8 [("Dining", (100 : ℚ)), ("Groceries", (100 : ℚ))]).2.2 _ _ rfl
      (List.Sublist.refl _)⟩

/-- The budget progress percentage rendered by view_budgets in lib/cli.py:
spent over limit times 100 when the limit is positive, else 0. -/
def budget_progress_pct (b : Budget) (transactions : List Transaction) : ℚ :=
  if 0 < b.limit_amount then b.get_spent_amount transactions / b.limit_amount * 100 else 0

/-- The per-category share rendered by generate_report in lib/cli.py:
amount over the partition total times 100 when the total is positive,
else 0. -/
def category_percentage (amount total : ℚ) : ℚ :=
  if 0 < total then amount / total * 100 else 0

/-- C7: the three division-by-zero edge cases all resolve to 0: a goal
with zero target has progress 0, a budget with zero limit has progress
percentage 0, and a category share over a zero partition total is 0 (the
guards make every such computation total). -/
theorem claim_C7 (g : SavingsGoal) (b : Budget) (ts : List Transaction) (amount : ℚ)
    (hg : g.target_amount = 0) (hb : b.limit_amount = 0) :
    g.get_progress_percentage = 0
    ∧ budget_progress_pct b ts = 0
    ∧ category_percentage amount 0 = 0 := by
  refine ⟨?_, ?_, ?_⟩
  · simp [SavingsGoal.get_progress_percentage, hg]
  · simp [budget_progress_pct, hb]
  · simp [category_percentage]

/-- A goal whose target is zero, used to witness C7. -/
def goalZeroTarget : SavingsGoal :=
  { name := "paused", target_amount := 0, current_amount := 25, is_achieved := true }

/-- A budget whose limit is zero, used to witness C7. -/
def budgetZero : Budget :=
  { category := "Misc", limit_amount := 0, month := "2024-03" }

/-- Witness for C7 at concrete zero-divisor inputs. -/
theorem claim_C7_witness :
    goalZeroTarget.target_amount = 0
    ∧ budgetZero.limit_amount = 0
    ∧ (goalZeroTarget.get_progress_percentage = 0
       ∧ budget_progress_pct budgetZero [] = 0
       ∧ category_percentage 5 0 = 0) :=
  ⟨rfl, rfl, claim_C7 goalZeroTarget budgetZero [] 5 rfl rfl⟩

/-- The transaction-type parse in add_transaction and
add_transaction_with_tags (lib/cli.py): INCOME exactly on strings that
lower-case to "income"; every other string falls through to EXPENSE. -/
def parse_transaction_type (s : String) : TransactionType :=
  if s.toLower = "income" then TransactionType.INCOME else TransactionType.EXPENSE

/-- The Transaction record those CLI entry points build and store. -/
def mk_transaction (amount : ℚ) (category description transaction_type : String)
    (transaction_date : Date) : Transaction :=
  { amount := amount
    description := description
    category := category
    transaction_type := parse_transaction_type transaction_type
    transaction_date := transaction_date }

/-- C9: the stored type of a created transaction is INCOME exactly when
the raw string lower-cases to "income", and is EXPENSE exactly otherwise
(unknown strings are silently stored as EXPENSE, never rejected). -/
theorem claim_C9 (amount : ℚ) (category description ty : String) (d : Date) :
    ((mk_transaction amount category description ty d).transaction_type
        = TransactionType.INCOME
      ↔ ty.toLower = "income")
    ∧ ((mk_transaction amount category description ty d).transaction_type
        = TransactionType.EXPENSE
      ↔ ¬ty.toLower = "income") := by
  unfold mk_transaction parse_transaction_type
  by_cases h : ty.toLower = "income" <;> simp [h]

/-- The tag-resolution loop of add_transaction_with_tags (lib/cli.py):
each requested name that resolves against the tag store appends that tag
to the transaction's tag list; unresolved names are skipped with a
warning only. Tags are modelled by their store-unique names. -/
def resolve_tags (store : List String) (tag_names : List String) : List String :=
  tag_names.foldl (fun acc n => if n ∈ store then acc ++ [n] else acc) []

/-- C6 evaluated at the failing input: with a tag named "food" in the
store, the duplicate request ["food", "food"] appends the tag twice
(contradicting the at-most-once claim and the primary key of the
transaction_tags association table), while a request with one
unresolvable name still yields the resolved tag exactly once. -/
theorem claim_C6_eval :
    (resolve_tags ["food"] ["food", "food"]).count "food" = 2
    ∧ resolve_tags ["food"] ["food", "groceries"] = ["food"] := by
  constructor <;> decide

end FinanceTracker
